import Mathlib

/-!
Verification of the Sub-Agent Session Aggregator of this repository.

The definitions below are a shallow embedding of the event-handling logic of
`src/components/SubAgentChatViewer.tsx` (the session aggregator the spec
describes) and of `src/lib/textUtils.ts`.  JavaScript values delivered as
event payloads are modelled by the `Json` inductive; JS truthiness, strict
equality against an optional string prop, `JSON.stringify`, and template
interpolation are modelled by `Json.truthy`, `jsStrictEq`, `Json.stringify`
and `jsTemplate`.  A missing property and a property holding `undefined` are
both modelled as `none` (they are indistinguishable to every operation this
code performs: property reads, truthiness tests, and `JSON.stringify`, which
omits `undefined`-valued fields).

Timestamps are modelled as integer epoch milliseconds: the component stores
`new Date().toISOString()` strings and compares them with
`new Date(x).getTime()`, an injective, order-preserving encoding, so the
integer abstraction is faithful; a payload timestamp field is a `Json.num`
holding the epoch value (`jsonTime`), other shapes are outside the model.

React state is modelled explicitly: `CState` holds the `subAgentMessages`
transcript, the `isSubAgentActive` and `hasStarted` flags and the
`processedEvents` set; one delivered Tauri event is one application of
`step`, which dispatches on the registered listener topics exactly as the
component registers them (the five `…:{parentSessionId}` listeners, plus the
three hard-coded `…:2c84ea8d` listeners registered when the parent session id
differs from that constant).  `Math.random()` in the message id and
`new Date()` are inputs (`rand`, `now`) supplied with each delivery.
-/

/-- JavaScript values as delivered in event payloads. -/
inductive Json where
  | str (s : String)
  | num (n : Int)
  | bool (b : Bool)
  | null
  | arr (elems : List Json)
  | obj (fields : List (String × Json))

mutual

/-- Structural equality on `Json` (used only to build decidable equality). -/
def Json.beq : Json → Json → Bool
  | .str a, .str b => a == b
  | .num a, .num b => a == b
  | .bool a, .bool b => a == b
  | .null, .null => true
  | .arr a, .arr b => Json.beqList a b
  | .obj a, .obj b => Json.beqFields a b
  | _, _ => false

/-- Elementwise equality of `Json` arrays. -/
def Json.beqList : List Json → List Json → Bool
  | [], [] => true
  | a :: as, b :: bs => Json.beq a b && Json.beqList as bs
  | _, _ => false

/-- Fieldwise equality of `Json` objects. -/
def Json.beqFields : List (String × Json) → List (String × Json) → Bool
  | [], [] => true
  | (k, v) :: as, (l, w) :: bs => k == l && Json.beq v w && Json.beqFields as bs
  | _, _ => false

end

instance : BEq Json := ⟨Json.beq⟩

/-- Property access `o[k]`: `none` models `undefined` (missing property, or
access on a non-object). -/
def Json.getField : Json → String → Option Json
  | .obj fs, k => fs.lookup k
  | _, _ => none

/-- JS truthiness of a value. -/
def Json.truthy : Json → Bool
  | .str s => !(s == "")
  | .num n => !(n == 0)
  | .bool b => b
  | .null => false
  | .arr _ => true
  | .obj _ => true

/-- JS truthiness of a possibly-`undefined` value. -/
def truthyOpt : Option Json → Bool
  | none => false
  | some j => j.truthy

/-- The JS expression `x || d` for a possibly-undefined `x` and a value
default. -/
def jsOr (o : Option Json) (d : Json) : Json :=
  match o with
  | some j => if j.truthy then j else d
  | none => d

/-- Template interpolation of a value. -/
def jsTemplate : Json → String
  | .str s => s
  | .num n => toString n
  | .bool b => toString b
  | .null => "null"
  | .arr _ => ""
  | .obj _ => "[object Object]"

/-- Template interpolation of a possibly-`undefined` value. -/
def jsTemplateOpt : Option Json → String
  | none => "undefined"
  | some j => jsTemplate j

/-- The JS template fragment for the expression `x || d` with a string
default. -/
def jsOrTemplate (o : Option Json) (d : String) : String :=
  match o with
  | some j => if j.truthy then jsTemplate j else d
  | none => d

/-- Strict equality `x === y` between a payload field and an optional string
prop (both sides `undefined` compare equal; a non-string value never equals a
string). -/
def jsStrictEq : Option Json → Option String → Bool
  | none, none => true
  | some (Json.str s), some t => s == t
  | _, _ => false

/-- The millisecond value of a timestamp payload, `new Date(x).getTime()`.
Payload timestamps are modelled as `Json.num` epoch milliseconds. -/
def jsonTime : Json → Int
  | .num n => n
  | _ => 0

/-- The expression `ts || now` used for message timestamps: the payload
timestamp if truthy, else the current time. -/
def tsOrNow (o : Option Json) (now : Int) : Int :=
  match o with
  | some j => if j.truthy then jsonTime j else now
  | none => now

mutual

/-- The `JSON.stringify` encoding (no indentation, as called in the
deduplication check). -/
def Json.stringify : Json → String
  | .str s => "\"" ++ s ++ "\""
  | .num n => toString n
  | .bool b => toString b
  | .null => "null"
  | .arr xs => "[" ++ Json.stringifyList xs ++ "]"
  | .obj fs => "\x7b" ++ Json.stringifyFields fs ++ "\x7d"

/-- Comma-joined stringification of array elements. -/
def Json.stringifyList : List Json → String
  | [] => ""
  | [x] => Json.stringify x
  | x :: xs => Json.stringify x ++ "," ++ Json.stringifyList xs

/-- Comma-joined stringification of object fields. -/
def Json.stringifyFields : List (String × Json) → String
  | [] => ""
  | [(k, v)] => "\"" ++ k ++ "\":" ++ Json.stringify v
  | (k, v) :: fs => "\"" ++ k ++ "\":" ++ Json.stringify v ++ "," ++ Json.stringifyFields fs

end

/-- `JSON.stringify` of a possibly-`undefined` value: `JSON.stringify(undefined)`
is `undefined` itself, so the result is an `Option String` and the strict
equality the dedup check performs on two such results is `Option.beq`. -/
def stringifyOpt : Option Json → Option String
  | none => none
  | some j => some j.stringify

/-! ## The aggregator state and the normalized message record

`Msg` is the `ClaudeStreamMessage` record as this component constructs it:
`type`, optional `subtype`, optional structured `message`, optional string
`result`, and a timestamp. -/

/-- A transcript entry (`ClaudeStreamMessage` as built by the component). -/
structure Msg where
  type : Json
  subtype : Option Json
  message : Option Json
  result : Option String
  timestamp : Int

/-- The session identity the component is constructed for: the
`parentSessionId` whose topics it subscribes and its own `toolId` prop
(possibly `undefined`). -/
structure Config where
  parentSessionId : String
  toolId : Option String

/-- The mutable React state of one mounted component: the transcript, the
two lifecycle flags, and the `processedEvents` identity-dedup set. -/
structure CState where
  messages : List Msg
  isSubAgentActive : Bool
  hasStarted : Bool
  processedEvents : List String

/-- The event channels the component listens on; a concrete topic string is
a channel name plus `":"` plus a session id, so `(channel, session)` is a
faithful decomposition of the exact-match topic names. -/
inductive Channel where
  | detected
  | output
  | started
  | message
  | complete
deriving DecidableEq

/-- One raw delivered event. -/
structure RawEvent where
  channel : Channel
  session : String
  payload : Json

/-- The hard-coded "actual session" id the component additionally listens
for (`const actualSessionId = "2c84ea8d"`). -/
def actualSessionId : String := "2c84ea8d"

/-! ## The individual event handlers, translated one-for-one -/

/-- The message appended by the `subagent-detected` handler. -/
def detectionMessage (p : Json) (now : Int) : Msg :=
  { type := Json.str "system"
    subtype := some (Json.str "info")
    message := none
    result := some ("Sub-agent process detected: PID " ++ jsTemplateOpt (p.getField "subagent_pid"))
    timestamp := now }

/-- Handler for `subagent-detected:{parentSessionId}`: unconditionally
appends a detection message and sets `isSubAgentActive` to `true`. -/
def handleDetected (s : CState) (p : Json) (now : Int) : CState :=
  { s with messages := s.messages ++ [detectionMessage p now], isSubAgentActive := true }

/-- The assistant message the `subagent-output` handler builds around
`data.output` (an `undefined` output yields a text block without a `text`
field, which is how `JSON.stringify` sees the JS object). -/
def outputMessage (p : Json) (now : Int) : Msg :=
  { type := Json.str "assistant"
    subtype := none
    message := some (Json.obj [("content", Json.arr [Json.obj
      (("type", Json.str "text") :: (match p.getField "output" with
        | some v => [("text", v)]
        | none => []))])])
    result := none
    timestamp := now }

/-- Handler for `subagent-output:{parentSessionId}`: appends the output as
an assistant message; note it performs no `tool_id` filtering and no
deduplication. -/
def handleOutput (s : CState) (p : Json) (now : Int) : CState :=
  { s with messages := s.messages ++ [outputMessage p now] }

/-- The system message built by both start handlers. -/
def startedMessage (p : Json) (now : Int) : Msg :=
  { type := Json.str "system"
    subtype := some (Json.str "info")
    message := none
    result := some ("Starting " ++ jsOrTemplate (p.getField "subagent_type") "Task"
      ++ " sub-agent: " ++ jsTemplateOpt (p.getField "description"))
    timestamp := now }

/-- Handler for `subagent-started:{parentSessionId}`: when the payload
`tool_id` strictly equals the component's `toolId` and the `start-` event id
is new, it records the id, sets both flags, and RESETS the transcript to the
single start message (`setSubAgentMessages([systemMessage])`). -/
def handleStarted (cfg : Config) (s : CState) (p : Json) (now : Int) : CState :=
  let eventId := "start-" ++ jsTemplateOpt (p.getField "tool_id")
  if jsStrictEq (p.getField "tool_id") cfg.toolId && !(s.processedEvents.contains eventId) then
    { s with processedEvents := eventId :: s.processedEvents
             hasStarted := true
             isSubAgentActive := true
             messages := [startedMessage p now] }
  else s

/-- The guard `data.tool_id && data.tool_id !== toolId` that skips messages
addressed to another tool. -/
def toolSkip (cfg : Config) (p : Json) : Bool :=
  truthyOpt (p.getField "tool_id") && !(jsStrictEq (p.getField "tool_id") cfg.toolId)

/-- The generated message id
`msg-${tool_id or unknown}-${message timestamp or Date.now()}-${Math.random()}`;
the `Math.random()` component is the per-delivery input `rand`. -/
def mkMessageId (p : Json) (now : Int) (rand : String) : String :=
  "msg-" ++ jsOrTemplate (p.getField "tool_id") "unknown" ++ "-"
    ++ jsOrTemplate ((p.getField "message").bind (fun dm => dm.getField "timestamp")) (toString now)
    ++ "-" ++ rand

/-- Normalization of a `subagent-message` payload into a `Msg`, following the
handler's three shape branches: `data.message.message` a string, a truthy
non-string, or neither (fallback keeping `data.message` itself). -/
def normalizeMessage (p : Json) (now : Int) : Msg :=
  let dm := (p.getField "message").getD Json.null
  let thinking := p.getField "type" == some (Json.str "subagent_thinking")
  match dm.getField "message" with
  | some (Json.str str) =>
    { type := jsOr (dm.getField "type") (Json.str "assistant")
      subtype := if thinking then some (Json.str "thinking") else dm.getField "subtype"
      message := some (Json.obj [("content", Json.arr
        [Json.obj [("type", Json.str "text"), ("text", Json.str str)]])])
      result := if dm.getField "type" == some (Json.str "system") then some str else none
      timestamp := tsOrNow (dm.getField "timestamp") now }
  | some j =>
    if j.truthy then
      { type := jsOr (dm.getField "type") (Json.str "assistant")
        subtype := if thinking then some (Json.str "thinking") else dm.getField "subtype"
        message := some j
        result := none
        timestamp := tsOrNow (dm.getField "timestamp") now }
    else
      { type := jsOr (dm.getField "type") (Json.str "assistant")
        subtype := if thinking then some (Json.str "thinking") else none
        message := some dm
        result := none
        timestamp := tsOrNow (dm.getField "timestamp") now }
  | none =>
    { type := jsOr (dm.getField "type") (Json.str "assistant")
      subtype := if thinking then some (Json.str "thinking") else none
      message := some dm
      result := none
      timestamp := tsOrNow (dm.getField "timestamp") now }

/-- The content-based duplicate check run against the previous transcript:
an existing entry within 100 ms whose stringified `message` or stringified
`result` coincides marks the new message as a duplicate (note that two
`undefined` results stringify to `undefined` and compare equal). -/
def isDuplicateIn (prev : List Msg) (m : Msg) : Bool :=
  prev.any (fun old =>
    ((old.timestamp - m.timestamp).natAbs < 100)
      && ((stringifyOpt old.message == stringifyOpt m.message)
          || (old.result == m.result)))

/-- Handler for `subagent-message:{parentSessionId}`: skip foreign tools,
then if the (randomized) message id is new and `data.message` is truthy,
record the id and append the normalized message unless the duplicate check
suppresses it. -/
def handleMessage (cfg : Config) (s : CState) (p : Json) (now : Int) (rand : String) : CState :=
  if toolSkip cfg p then s
  else
    let messageId := mkMessageId p now rand
    if !(s.processedEvents.contains messageId) && truthyOpt (p.getField "message") then
      let m := normalizeMessage p now
      if isDuplicateIn s.messages m then
        { s with processedEvents := messageId :: s.processedEvents }
      else
        { s with processedEvents := messageId :: s.processedEvents
                 messages := s.messages ++ [m] }
    else s

/-- The completion message appended by both completion handlers. -/
def completionMessage (now : Int) : Msg :=
  { type := Json.str "system"
    subtype := some (Json.str "success")
    message := none
    result := some "Sub-agent task completed successfully"
    timestamp := now }

/-- Handler for `subagent-complete:{parentSessionId}`: when `tool_id`
strictly equals the component's `toolId` and the `complete-` event id is
new, it records the id, clears `isSubAgentActive`, and appends the
completion message. -/
def handleComplete (cfg : Config) (s : CState) (p : Json) (now : Int) : CState :=
  let eventId := "complete-" ++ jsTemplateOpt (p.getField "tool_id")
  if jsStrictEq (p.getField "tool_id") cfg.toolId && !(s.processedEvents.contains eventId) then
    { s with processedEvents := eventId :: s.processedEvents
             isSubAgentActive := false
             messages := s.messages ++ [completionMessage now] }
  else s

/-- Handler for `subagent-started:2c84ea8d`: no guard at all — sets the
flags and resets the transcript on every delivery. -/
def handleActualStarted (s : CState) (p : Json) (now : Int) : CState :=
  { s with hasStarted := true
           isSubAgentActive := true
           messages := [startedMessage p now] }

/-- Normalization used by the `subagent-message:2c84ea8d` handler: only two
branches, the non-string branch keeping `data.message.message` (possibly
`undefined`). -/
def actualNormalize (p : Json) (now : Int) : Msg :=
  let dm := (p.getField "message").getD Json.null
  let thinking := p.getField "type" == some (Json.str "subagent_thinking")
  match dm.getField "message" with
  | some (Json.str str) =>
    { type := jsOr (dm.getField "type") (Json.str "assistant")
      subtype := if thinking then some (Json.str "thinking") else dm.getField "subtype"
      message := some (Json.obj [("content", Json.arr
        [Json.obj [("type", Json.str "text"), ("text", Json.str str)]])])
      result := if dm.getField "type" == some (Json.str "system") then some str else none
      timestamp := tsOrNow (dm.getField "timestamp") now }
  | other =>
    { type := jsOr (dm.getField "type") (Json.str "assistant")
      subtype := if thinking then some (Json.str "thinking") else dm.getField "subtype"
      message := other
      result := none
      timestamp := tsOrNow (dm.getField "timestamp") now }

/-- Handler for `subagent-message:2c84ea8d`: appends whenever `data.message`
is truthy — no tool filtering and no deduplication. -/
def handleActualMessage (s : CState) (p : Json) (now : Int) : CState :=
  if truthyOpt (p.getField "message") then
    { s with messages := s.messages ++ [actualNormalize p now] }
  else s

/-- Handler for `subagent-complete:2c84ea8d`: unconditionally clears
`isSubAgentActive` and appends a completion message on every delivery. -/
def handleActualComplete (s : CState) (now : Int) : CState :=
  { s with isSubAgentActive := false
           messages := s.messages ++ [completionMessage now] }

/-- One delivered event, dispatched to the listener registered for its exact
topic: the five `…:{parentSessionId}` listeners, or — when the parent session
id differs from the hard-coded `2c84ea8d` — the three extra listeners on the
actual-session topics. -/
def step (cfg : Config) (s : CState) (e : RawEvent) (now : Int) (rand : String) : CState :=
  if e.session == cfg.parentSessionId then
    match e.channel with
    | Channel.detected => handleDetected s e.payload now
    | Channel.output => handleOutput s e.payload now
    | Channel.started => handleStarted cfg s e.payload now
    | Channel.message => handleMessage cfg s e.payload now rand
    | Channel.complete => handleComplete cfg s e.payload now
  else if !(cfg.parentSessionId == actualSessionId) && e.session == actualSessionId then
    match e.channel with
    | Channel.started => handleActualStarted s e.payload now
    | Channel.message => handleActualMessage s e.payload now
    | Channel.complete => handleActualComplete s now
    | _ => s
  else s

/-! ## Construction -/

/-- String interpolation of a possibly-missing string prop. -/
def strOrUndefined : Option String → String
  | some s => s
  | none => "undefined"

/-- The JS expression `s || d` for an optional string prop. -/
def strOrDefault (o : Option String) (d : String) : String :=
  match o with
  | some s => if s == "" then d else s
  | none => d

/-- The initial info message set by the mount effect when no result prop was
supplied. -/
def initMessage (stype desc : Option String) (now : Int) : Msg :=
  { type := Json.str "system"
    subtype := some (Json.str "info")
    message := none
    result := some ("Initializing " ++ strOrDefault stype "task"
      ++ " sub-agent: " ++ strOrUndefined desc)
    timestamp := now }

/-- The summary message set by the mount effect when a (truthy) result prop
was supplied. -/
def completedInitMessage (desc : Option String) (now : Int) : Msg :=
  { type := Json.str "system"
    subtype := some (Json.str "success")
    message := none
    result := some ("Sub-agent task completed: " ++ strOrUndefined desc)
    timestamp := now }

/-- The component state right after mount: `isSubAgentActive` starts as
`!result`, and the first effect either installs the "Initializing" message
or — when `result` is truthy — clears the active flag and installs the single
completion summary. -/
def initState (result : Option Json) (stype desc : Option String) (now : Int) : CState :=
  if truthyOpt result then
    { messages := [completedInitMessage desc now]
      isSubAgentActive := false
      hasStarted := true
      processedEvents := [] }
  else
    { messages := [initMessage stype desc now]
      isSubAgentActive := true
      hasStarted := true
      processedEvents := [] }

/-- Whether the subscription effect installs any listeners: it returns early
when `parentSessionId` is falsy or `result` is truthy
(`if (!parentSessionId || result) return`). -/
def subscribes (parentSessionId : Option String) (result : Option Json) : Bool :=
  (match parentSessionId with
    | some pid => !(pid == "")
    | none => false) && !(truthyOpt result)

/-! ## Text utilities (`src/lib/textUtils.ts`)

Strings are modelled as their character lists; a falsy string is exactly the
empty string, so the `if (!text)` guards become emptiness tests.  The global
regex replace `/\n\n\n+/g → "\n\n"` collapses every maximal run of three or
more newlines to exactly two; `squeezeNewlines` computes the same function by
deleting a newline whenever three consecutive newlines remain, and
`String.prototype.trim` removes leading and trailing whitespace
(`isWsChar`). -/

/-- Whitespace as removed by `trim`. -/
def isWsChar (c : Char) : Bool :=
  c == ' ' || c == '\t' || c == '\n' || c == '\r'

/-- `convertPipesToNewlines`: empty in, empty out; otherwise every pipe
character becomes a newline (`text.replace(/\|/g, '\n')`). -/
def convertPipesToNewlines (l : List Char) : List Char :=
  if l.isEmpty then []
  else l.map (fun c => if c == '|' then '\n' else c)

/-- The replace `/\n\n\n+/g → "\n\n"`: any maximal run of three or more
newlines collapses to two (deleting one newline at a time whenever three
are adjacent computes exactly that). -/
def squeezeNewlines : List Char → List Char
  | [] => []
  | [c] => [c]
  | [c, d] => [c, d]
  | c1 :: c2 :: c3 :: rest =>
    if c1 == '\n' && c2 == '\n' && c3 == '\n' then
      squeezeNewlines (c2 :: c3 :: rest)
    else
      c1 :: squeezeNewlines (c2 :: c3 :: rest)

/-- `trim()`: drop leading and trailing whitespace. -/
def trimChars (l : List Char) : List Char :=
  (((l.dropWhile isWsChar).reverse.dropWhile isWsChar)).reverse

/-- `preprocessTextForMarkdown`: empty in, empty out; otherwise convert
pipes, squeeze newline runs, and trim. -/
def preprocessTextForMarkdown (l : List Char) : List Char :=
  if l.isEmpty then []
  else trimChars (squeezeNewlines (convertPipesToNewlines l))

/-- Decides whether three consecutive newlines occur anywhere. -/
def hasTripleNewline : List Char → Bool
  | [] => false
  | [_] => false
  | [_, _] => false
  | c1 :: c2 :: c3 :: rest =>
    (c1 == '\n' && c2 == '\n' && c3 == '\n') || hasTripleNewline (c2 :: c3 :: rest)

/-! ## Concrete fixtures used by the witnesses and counterexamples -/

/-- A component mounted for parent session `p1` and tool `t1`, no result. -/
def cfgT : Config := { parentSessionId := "p1", toolId := some "t1" }

/-- Its state after mount (no result prop). -/
def sT0 : CState := initState none (some "research") (some "demo") 0

/-- A well-formed start payload for tool `t1`. -/
def pStartT : Json := Json.obj
  [("tool_id", Json.str "t1"), ("description", Json.str "demo"),
   ("subagent_type", Json.str "research")]

/-- A well-formed assistant message payload carrying its own timestamp. -/
def pHelloT : Json := Json.obj
  [("tool_id", Json.str "t1"),
   ("message", Json.obj [("type", Json.str "assistant"),
     ("message", Json.str "hello"), ("timestamp", Json.num 1000)])]

/-- An assistant message payload without a timestamp field. -/
def pWorldT : Json := Json.obj
  [("tool_id", Json.str "t1"),
   ("message", Json.obj [("type", Json.str "assistant"),
     ("message", Json.str "world")])]

/-- A completion payload for tool `t1`. -/
def pCompleteT : Json := Json.obj [("tool_id", Json.str "t1")]

/-- A message-topic payload with no `message` field at all. -/
def pNoMsgT : Json := Json.obj [("tool_id", Json.str "t1")]

/-- An output payload explicitly carrying the OTHER tool's id. -/
def pOutForeignT : Json := Json.obj
  [("tool_id", Json.str "t2"), ("output", Json.str "x")]

/-- A plain output payload. -/
def pOutT : Json := Json.obj [("output", Json.str "o")]

/-- Events on the component's own per-session topics. -/
def eStartT : RawEvent := { channel := Channel.started, session := "p1", payload := pStartT }

/-- The `hello` message event. -/
def eHelloT : RawEvent := { channel := Channel.message, session := "p1", payload := pHelloT }

/-- The timestampless `world` message event. -/
def eWorldT : RawEvent := { channel := Channel.message, session := "p1", payload := pWorldT }

/-- The completion event. -/
def eCompleteT : RawEvent := { channel := Channel.complete, session := "p1", payload := pCompleteT }

/-- A process-detection event. -/
def eDetectT : RawEvent := { channel := Channel.detected, session := "p1", payload := Json.obj [("subagent_pid", Json.num 4242)] }

/-- The message event lacking a `message` field. -/
def eNoMsgT : RawEvent := { channel := Channel.message, session := "p1", payload := pNoMsgT }

/-- The foreign-tool output event. -/
def eOutForeignT : RawEvent := { channel := Channel.output, session := "p1", payload := pOutForeignT }

/-- The plain output event. -/
def eOutT : RawEvent := { channel := Channel.output, session := "p1", payload := pOutT }

/-- A completion event delivered on the hard-coded actual-session topic. -/
def eActualCompleteT : RawEvent := { channel := Channel.complete, session := "2c84ea8d", payload := pCompleteT }

/-- State after the start event was honored (transcript was reset to the
start message). -/
def sStartT : CState := step cfgT sT0 eStartT 10 "r1"

/-- State after the completion event: inactive. -/
def sDoneT : CState := step cfgT sStartT eCompleteT 40 "r4"

/-- State after a plain output event at time 0 (its entry has no `result`
and no payload timestamp, the ingredients of the over-suppression bug). -/
def sOutT : CState := step cfgT sStartT eOutT 0 "ro"

/-! ## Helper lemmas about the individual handlers -/

theorem handleMessage_isSubAgentActive (cfg : Config) (s : CState) (p : Json)
    (now : Int) (rand : String) :
    (handleMessage cfg s p now rand).isSubAgentActive = s.isSubAgentActive := by
  unfold handleMessage
  split
  · rfl
  · dsimp only
    split
    · split <;> rfl
    · rfl

theorem handleMessage_messages (cfg : Config) (s : CState) (p : Json)
    (now : Int) (rand : String) :
    (handleMessage cfg s p now rand).messages = s.messages ∨
      (handleMessage cfg s p now rand).messages = s.messages ++ [normalizeMessage p now] := by
  unfold handleMessage
  split
  · exact Or.inl rfl
  · dsimp only
    split
    · split
      · exact Or.inl rfl
      · exact Or.inr rfl
    · exact Or.inl rfl

theorem handleComplete_inactive (cfg : Config) (s : CState) (p : Json) (now : Int)
    (h : s.isSubAgentActive = false) :
    (handleComplete cfg s p now).isSubAgentActive = false := by
  unfold handleComplete
  dsimp only
  split
  · rfl
  · exact h

theorem handleActualMessage_isSubAgentActive (s : CState) (p : Json) (now : Int) :
    (handleActualMessage s p now).isSubAgentActive = s.isSubAgentActive := by
  unfold handleActualMessage
  split <;> rfl

/-- C1 (amended): once `isSubAgentActive` is false, no message, output or
complete event — on either the per-session or the hard-coded actual-session
topics — ever sets it true again; only `subagent-detected` and
`subagent-started` events can reactivate the session (see the
counterexample). -/
theorem completed_stays_inactive_on_message_output_complete
    (cfg : Config) (s : CState) (e : RawEvent) (now : Int) (rand : String)
    (hinactive : s.isSubAgentActive = false)
    (hch : e.channel = Channel.output ∨ e.channel = Channel.message ∨
      e.channel = Channel.complete) :
    (step cfg s e now rand).isSubAgentActive = false := by
  unfold step
  split
  · rcases hch with h | h | h <;> rw [h]
    · exact hinactive
    · rw [handleMessage_isSubAgentActive]
      exact hinactive
    · exact handleComplete_inactive cfg s e.payload now hinactive
  · split
    · rcases hch with h | h | h <;> rw [h]
      · exact hinactive
      · rw [handleActualMessage_isSubAgentActive]
        exact hinactive
      · rfl
    · exact hinactive

/-- Witness for C1's theorem: after the completion of `t1`, a further
message event leaves the session inactive. -/
theorem completed_stays_inactive_witness :
    sDoneT.isSubAgentActive = false ∧
      (step cfgT sDoneT eHelloT 50 "r5").isSubAgentActive = false := by
  constructor
  · decide
  · exact completed_stays_inactive_on_message_output_complete cfgT sDoneT eHelloT 50 "r5"
      (by decide) (Or.inr (Or.inl rfl))

/-- Counterexample to C1 as stated: the completion event sets
`isSubAgentActive` to false, but a later `subagent-detected` event sets it
back to true — the lifecycle is not monotonic. -/
theorem completed_reactivated_by_detected_cex :
    sDoneT.isSubAgentActive = false ∧
      (step cfgT sDoneT eDetectT 50 "r5").isSubAgentActive = true := by
  constructor <;> decide

theorem step_eq_handleStarted (cfg : Config) (s : CState) (e : RawEvent)
    (now : Int) (rand : String) (hses : e.session = cfg.parentSessionId)
    (hch : e.channel = Channel.started) :
    step cfg s e now rand = handleStarted cfg s e.payload now := by
  unfold step
  rw [hch]
  simp [hses]

theorem step_eq_handleMessage (cfg : Config) (s : CState) (e : RawEvent)
    (now : Int) (rand : String) (hses : e.session = cfg.parentSessionId)
    (hch : e.channel = Channel.message) :
    step cfg s e now rand = handleMessage cfg s e.payload now rand := by
  unfold step
  rw [hch]
  simp [hses]

theorem step_eq_handleComplete (cfg : Config) (s : CState) (e : RawEvent)
    (now : Int) (rand : String) (hses : e.session = cfg.parentSessionId)
    (hch : e.channel = Channel.complete) :
    step cfg s e now rand = handleComplete cfg s e.payload now := by
  unfold step
  rw [hch]
  simp [hses]

/-- C4 (amended): for every truthy supplied result — any nonempty string, or
any object, array, or other truthy value — the component mounts directly into
the completed presentation: `isSubAgentActive` is false, the transcript is
exactly the one synthesized summary entry, and the subscription effect
installs no listeners.  (An empty-string result is falsy and takes the live
path instead; see the counterexample.) -/
theorem terminal_short_circuit_truthy (r : Json) (stype desc : Option String)
    (now : Int) (pid : Option String) (hr : r.truthy = true) :
    (initState (some r) stype desc now).isSubAgentActive = false ∧
      (initState (some r) stype desc now).messages = [completedInitMessage desc now] ∧
      subscribes pid (some r) = false := by
  simp [initState, subscribes, truthyOpt, hr]

/-- Witness for C4's theorem at the spec's own example, the result string
`"done"`. -/
theorem terminal_short_circuit_witness :
    (initState (some (Json.str "done")) none (some "demo") 0).isSubAgentActive = false ∧
      (initState (some (Json.str "done")) none (some "demo") 0).messages
        = [completedInitMessage (some "demo") 0] ∧
      subscribes (some "p1") (some (Json.str "done")) = false :=
  terminal_short_circuit_truthy (Json.str "done") none (some "demo") 0 (some "p1") (by decide)

/-- Counterexample to C4 as stated: the empty string is a supplied plain
string result, yet the component presents as Active and the subscription
effect does install listeners — the short-circuit keys on JS truthiness, not
on a result being supplied. -/
theorem terminal_short_circuit_empty_string_cex :
    (initState (some (Json.str "")) none (some "demo") 0).isSubAgentActive = true ∧
      subscribes (some "p1") (some (Json.str "")) = true := by
  constructor <;> decide

/-- C6 (amended): on the exact per-session topics, started, message and
complete events whose payload carries a truthy `tool_id` different from the
component's `toolId` leave the component state completely unchanged; output
events are appended with no `tool_id` filtering at all (see the
counterexample), so isolation between two instances holds only for the
started/message/complete topics. -/
theorem tool_filter_started_message_complete
    (cfg : Config) (s : CState) (e : RawEvent) (now : Int) (rand : String) (tj : Json)
    (hses : e.session = cfg.parentSessionId)
    (hch : e.channel = Channel.started ∨ e.channel = Channel.message ∨
      e.channel = Channel.complete)
    (htid : e.payload.getField "tool_id" = some tj)
    (htruthy : tj.truthy = true)
    (hne : jsStrictEq (some tj) cfg.toolId = false) :
    step cfg s e now rand = s := by
  rcases hch with h | h | h
  · rw [step_eq_handleStarted cfg s e now rand hses h]
    unfold handleStarted
    simp [htid, hne]
  · rw [step_eq_handleMessage cfg s e now rand hses h]
    unfold handleMessage toolSkip
    simp [htid, hne, truthyOpt, htruthy]
  · rw [step_eq_handleComplete cfg s e now rand hses h]
    unfold handleComplete
    simp [htid, hne]

/-- Witness for C6's theorem: a started event for tool `t2` delivered to the
`t1` component changes nothing. -/
theorem tool_filter_witness :
    step cfgT sStartT { channel := Channel.started, session := "p1", payload := pOutForeignT }
      25 "rz" = sStartT :=
  tool_filter_started_message_complete cfgT sStartT
    { channel := Channel.started, session := "p1", payload := pOutForeignT }
    25 "rz" (Json.str "t2") rfl (Or.inl rfl) rfl (by decide) (by decide)

/-- Counterexample to C6 as stated: an output event on the exact per-session
topic carrying the OTHER instance's `tool_id` (`t2` ≠ `t1`) is appended to
this instance's transcript anyway — the output handler reads `data.output`
and never consults `tool_id`. -/
theorem output_ignores_tool_id_cex :
    pOutForeignT.getField "tool_id" = some (Json.str "t2") ∧
      cfgT.toolId = some "t1" ∧
      (step cfgT sStartT eOutForeignT 25 "rz").messages
        = sStartT.messages ++ [outputMessage pOutForeignT 25] := by
  refine ⟨rfl, rfl, ?_⟩
  rfl


theorem handleStarted_redelivery_noop (cfg : Config) (s : CState) (p p2 : Json)
    (now1 now2 : Int) (htid : p2.getField "tool_id" = p.getField "tool_id") :
    handleStarted cfg (handleStarted cfg s p now1) p2 now2 = handleStarted cfg s p now1 := by
  unfold handleStarted
  dsimp only
  rw [htid]
  by_cases h1 : jsStrictEq (p.getField "tool_id") cfg.toolId = true
  · by_cases h2 :
      ("start-" ++ jsTemplateOpt (p.getField "tool_id")) ∈ s.processedEvents
    · simp [h1, h2]
    · simp [h1, h2]
  · simp only [Bool.not_eq_true] at h1
    simp [h1]

theorem handleComplete_redelivery_noop (cfg : Config) (s : CState) (p p2 : Json)
    (now1 now2 : Int) (htid : p2.getField "tool_id" = p.getField "tool_id") :
    handleComplete cfg (handleComplete cfg s p now1) p2 now2 = handleComplete cfg s p now1 := by
  unfold handleComplete
  dsimp only
  rw [htid]
  by_cases h1 : jsStrictEq (p.getField "tool_id") cfg.toolId = true
  · by_cases h2 :
      ("complete-" ++ jsTemplateOpt (p.getField "tool_id")) ∈ s.processedEvents
    · simp [h1, h2]
    · simp [h1, h2]
  · simp only [Bool.not_eq_true] at h1
    simp [h1]

/-- C8 (amended): on the per-parentSessionId topics, start and completion
events are each honored at most once per tool id — redelivering a started or
complete event whose payload carries the same `tool_id` (on the same topic)
changes nothing at all, neither the transcript nor the lifecycle state.  The
hard-coded actual-session (`2c84ea8d`) start/complete handlers enforce no
such guard and re-apply every redelivery (see the counterexample). -/
theorem primary_lifecycle_dedup_once
    (cfg : Config) (s : CState) (e e2 : RawEvent) (now1 now2 : Int) (rand1 rand2 : String)
    (hses : e.session = cfg.parentSessionId) (hses2 : e2.session = cfg.parentSessionId)
    (hch : e.channel = Channel.started ∨ e.channel = Channel.complete)
    (hch2 : e2.channel = e.channel)
    (htid : e2.payload.getField "tool_id" = e.payload.getField "tool_id") :
    step cfg (step cfg s e now1 rand1) e2 now2 rand2 = step cfg s e now1 rand1 := by
  rcases hch with h | h
  · rw [step_eq_handleStarted cfg s e now1 rand1 hses h,
      step_eq_handleStarted cfg _ e2 now2 rand2 hses2 (hch2.trans h)]
    exact handleStarted_redelivery_noop cfg s e.payload e2.payload now1 now2 htid
  · rw [step_eq_handleComplete cfg s e now1 rand1 hses h,
      step_eq_handleComplete cfg _ e2 now2 rand2 hses2 (hch2.trans h)]
    exact handleComplete_redelivery_noop cfg s e.payload e2.payload now1 now2 htid

/-- Witness for C8's theorem: redelivering the `t1` start event is a
no-op. -/
theorem primary_lifecycle_dedup_witness :
    step cfgT (step cfgT sT0 eStartT 10 "r1") eStartT 11 "r2" = step cfgT sT0 eStartT 10 "r1" :=
  primary_lifecycle_dedup_once cfgT sT0 eStartT eStartT 10 11 "r1" "r2"
    rfl rfl (Or.inl rfl) rfl rfl

/-- Counterexample to C8 as stated: the same completion event for `t1`,
redelivered on the hard-coded actual-session topic, appends a second
completion entry — the `subagent-complete:2c84ea8d` handler keeps no
`processedEvents` guard. -/
theorem actual_complete_redelivery_cex :
    (step cfgT (step cfgT sStartT eActualCompleteT 25 "ra") eActualCompleteT 26 "rb").messages
      = sStartT.messages ++ [completionMessage 25, completionMessage 26] := by
  rfl

/-- C3 (amended): for message-topic payloads that pass the tool filter and
whose `message` field is truthy, normalization is total — `normalizeMessage`
is a total function — and the handler appends exactly its result unless the
content-window duplicate check suppresses the delivery; but a payload whose
`message` field is absent or falsy is silently dropped, not normalized to a
System fallback (see the counterexample), and the fallback branch that does
run keeps `payload.message` with kind `payload.message.type or assistant`,
not a System record of the whole raw payload. -/
theorem message_normalization_total_amended
    (cfg : Config) (s : CState) (e : RawEvent) (now : Int) (rand : String)
    (hses : e.session = cfg.parentSessionId) (hch : e.channel = Channel.message)
    (htool : toolSkip cfg e.payload = false)
    (hfresh : s.processedEvents.contains (mkMessageId e.payload now rand) = false)
    (hmsg : truthyOpt (e.payload.getField "message") = true) :
    (step cfg s e now rand).messages = s.messages ++ [normalizeMessage e.payload now] ∨
      (step cfg s e now rand).messages = s.messages := by
  rw [step_eq_handleMessage cfg s e now rand hses hch]
  unfold handleMessage
  dsimp only
  rw [htool, hfresh, hmsg]
  simp only [Bool.false_eq_true, if_false, Bool.not_false, Bool.and_self, if_true]
  split
  · exact Or.inr rfl
  · exact Or.inl rfl

/-- Witness for C3's theorem: a well-formed assistant message payload is
appended as its normalization. -/
theorem message_normalization_witness :
    (step cfgT sT0 eHelloT 20 "r2").messages = sT0.messages ++ [normalizeMessage pHelloT 20] ∨
      (step cfgT sT0 eHelloT 20 "r2").messages = sT0.messages :=
  message_normalization_total_amended cfgT sT0 eHelloT 20 "r2" rfl rfl
    (by decide) (by decide) (by decide)

/-- Counterexample to C3 as stated: a message-topic payload with no
`message` field leaves the state completely unchanged — nothing is appended,
no System-fallback record is produced; the handler only runs inside
`if (... && data.message)`. -/
theorem messageless_payload_dropped_cex :
    truthyOpt (pNoMsgT.getField "message") = false ∧
      step cfgT sStartT eNoMsgT 25 "rz" = sStartT := by
  exact ⟨rfl, rfl⟩

/-- C5 (amended): every delivered event either leaves the transcript
unchanged, appends exactly one message at the END, or — only for started
events — resets the transcript to a single start message.  No event ever
reorders or interleaves existing entries, so arrival order is preserved
among the entries that survive; payload-claimed timestamps play no role in
placement.  (The started-event reset is what breaks the claim as stated; see
the counterexample.) -/
theorem step_appends_or_resets (cfg : Config) (s : CState) (e : RawEvent)
    (now : Int) (rand : String) :
    (step cfg s e now rand).messages = s.messages ∨
      (∃ m, (step cfg s e now rand).messages = s.messages ++ [m]) ∨
      (e.channel = Channel.started ∧ ∃ m, (step cfg s e now rand).messages = [m]) := by
  obtain ⟨ch, ses, p⟩ := e
  unfold step
  dsimp only
  split
  · cases ch
    · exact Or.inr (Or.inl ⟨detectionMessage p now, rfl⟩)
    · exact Or.inr (Or.inl ⟨outputMessage p now, rfl⟩)
    · unfold handleStarted
      dsimp only
      split
      · exact Or.inr (Or.inr ⟨rfl, startedMessage p now, rfl⟩)
      · exact Or.inl rfl
    · rcases handleMessage_messages cfg s p now rand with h | h
      · exact Or.inl h
      · exact Or.inr (Or.inl ⟨normalizeMessage p now, h⟩)
    · unfold handleComplete
      dsimp only
      split
      · exact Or.inr (Or.inl ⟨completionMessage now, rfl⟩)
      · exact Or.inl rfl
  · split
    · cases ch <;> dsimp only
      · exact Or.inl rfl
      · exact Or.inl rfl
      · exact Or.inr (Or.inr ⟨rfl, startedMessage p now, rfl⟩)
      · unfold handleActualMessage
        split
        · exact Or.inr (Or.inl ⟨actualNormalize p now, rfl⟩)
        · exact Or.inl rfl
      · exact Or.inr (Or.inl ⟨completionMessage now, rfl⟩)
    · exact Or.inl rfl

/-- Counterexample to C5 as stated: event A (a message, appended) is
delivered before event B (a started event); after B the transcript is the
single start message, so A's normalized message does not appear before B's —
it does not appear at all. -/
theorem order_lost_by_started_reset_cex :
    (step cfgT sT0 eHelloT 20 "r2").messages
        = sT0.messages ++ [normalizeMessage pHelloT 20] ∧
      (step cfgT (step cfgT sT0 eHelloT 20 "r2") eStartT 30 "r3").messages
        = [startedMessage pStartT 30] ∧
      stringifyOpt (normalizeMessage pHelloT 20).message
        ≠ stringifyOpt (startedMessage pStartT 30).message := by
  refine ⟨rfl, rfl, ?_⟩
  decide

/-- C7 (amended): every event other than a started event only ever appends
(at most one message, at the end): message, output, detected and complete
handlers never remove, replace or reorder existing entries.  A started event
instead replaces the whole transcript with a single start message (see the
counterexample). -/
theorem non_started_events_append_only (cfg : Config) (s : CState) (e : RawEvent)
    (now : Int) (rand : String) (h : e.channel ≠ Channel.started) :
    (step cfg s e now rand).messages = s.messages ∨
      ∃ m, (step cfg s e now rand).messages = s.messages ++ [m] := by
  obtain ⟨ch, ses, p⟩ := e
  unfold step
  dsimp only
  split
  · cases ch
    · exact Or.inr ⟨detectionMessage p now, rfl⟩
    · exact Or.inr ⟨outputMessage p now, rfl⟩
    · exact absurd rfl h
    · rcases handleMessage_messages cfg s p now rand with hm | hm
      · exact Or.inl hm
      · exact Or.inr ⟨normalizeMessage p now, hm⟩
    · unfold handleComplete
      dsimp only
      split
      · exact Or.inr ⟨completionMessage now, rfl⟩
      · exact Or.inl rfl
  · split
    · cases ch <;> dsimp only
      · exact Or.inl rfl
      · exact Or.inl rfl
      · exact absurd rfl h
      · unfold handleActualMessage
        split
        · exact Or.inr ⟨actualNormalize p now, rfl⟩
        · exact Or.inl rfl
      · exact Or.inr ⟨completionMessage now, rfl⟩
    · exact Or.inl rfl

/-- Witness for C7's theorem at a concrete output event. -/
theorem non_started_events_append_only_witness :
    (step cfgT sStartT eOutT 0 "ro").messages = sStartT.messages ∨
      ∃ m, (step cfgT sStartT eOutT 0 "ro").messages = sStartT.messages ++ [m] :=
  non_started_events_append_only cfgT sStartT eOutT 0 "ro" (by decide)

/-- Counterexample to C7 as stated: the mount-time "Initializing" entry is
removed by a later accepted started event, whose handler resets the
transcript instead of appending. -/
theorem started_event_replaces_transcript_cex :
    sT0.messages.map (fun m => m.result)
        = [some "Initializing research sub-agent: demo"] ∧
      (step cfgT sT0 eStartT 10 "r1").messages.map (fun m => m.result)
        = [some "Starting research sub-agent: demo"] := by
  exact ⟨rfl, rfl⟩

theorem tsOrNow_close (o : Option Json) (now1 now2 : Int)
    (h : (now1 - now2).natAbs < 100) :
    (tsOrNow o now1 - tsOrNow o now2).natAbs < 100 := by
  unfold tsOrNow
  rcases o with _ | j
  · exact h
  · by_cases ht : j.truthy = true
    · simp [ht]
    · simpa [ht] using h

theorem normalizeMessage_message_indep (p : Json) (now1 now2 : Int) :
    (normalizeMessage p now1).message = (normalizeMessage p now2).message := by
  unfold normalizeMessage
  dsimp only
  split
  · rfl
  · split <;> rename_i ht <;> simp [ht]
  · rfl

theorem normalizeMessage_result_indep (p : Json) (now1 now2 : Int) :
    (normalizeMessage p now1).result = (normalizeMessage p now2).result := by
  unfold normalizeMessage
  dsimp only
  split
  · rfl
  · split <;> rename_i ht <;> simp [ht]
  · rfl

theorem normalizeMessage_timestamp_close (p : Json) (now1 now2 : Int)
    (h : (now1 - now2).natAbs < 100) :
    ((normalizeMessage p now1).timestamp - (normalizeMessage p now2).timestamp).natAbs < 100 := by
  unfold normalizeMessage
  dsimp only
  split
  · exact tsOrNow_close _ now1 now2 h
  · split
    · rename_i ht
      try rw [if_pos ht]
      exact tsOrNow_close _ now1 now2 h
    · rename_i ht
      try rw [if_neg ht]
      exact tsOrNow_close _ now1 now2 h
  · exact tsOrNow_close _ now1 now2 h

/-- C9 (confirmed): starting from an empty transcript, a first message whose
normalization leaves `result` undefined is appended; a second message event
whose normalization also leaves `result` undefined and whose timestamp lies
within 100 ms is then classified as a duplicate and suppressed — EVEN when
its message content is completely different — because the content comparison
`JSON.stringify(m.result) === JSON.stringify(message.result)` compares
`undefined` with `undefined` and succeeds.  The transcript stays exactly
`[first message]` whatever the second payload says. -/
theorem undefined_result_oversuppression
    (cfg : Config) (s : CState) (e1 e2 : RawEvent) (now1 now2 : Int) (rand1 rand2 : String)
    (hses1 : e1.session = cfg.parentSessionId) (hch1 : e1.channel = Channel.message)
    (hses2 : e2.session = cfg.parentSessionId) (hch2 : e2.channel = Channel.message)
    (hempty : s.messages = [])
    (htool1 : toolSkip cfg e1.payload = false)
    (hfresh1 : s.processedEvents.contains (mkMessageId e1.payload now1 rand1) = false)
    (hmsg1 : truthyOpt (e1.payload.getField "message") = true)
    (hres1 : (normalizeMessage e1.payload now1).result = none)
    (hres2 : (normalizeMessage e2.payload now2).result = none)
    (htime : ((normalizeMessage e1.payload now1).timestamp
      - (normalizeMessage e2.payload now2).timestamp).natAbs < 100) :
    (step cfg (step cfg s e1 now1 rand1) e2 now2 rand2).messages
      = [normalizeMessage e1.payload now1] := by
  have h1 : (step cfg s e1 now1 rand1).messages = [normalizeMessage e1.payload now1] := by
    rw [step_eq_handleMessage cfg s e1 now1 rand1 hses1 hch1]
    unfold handleMessage
    dsimp only
    rw [htool1, hfresh1, hmsg1]
    simp only [Bool.false_eq_true, if_false, Bool.not_false, Bool.and_self, if_true]
    rw [hempty]
    simp [isDuplicateIn]
  have hdup2 : isDuplicateIn (step cfg s e1 now1 rand1).messages
      (normalizeMessage e2.payload now2) = true := by
    rw [h1]
    unfold isDuplicateIn
    simp only [List.any_cons, List.any_nil, Bool.or_false]
    rw [Bool.and_eq_true, Bool.or_eq_true]
    refine ⟨decide_eq_true htime, Or.inr ?_⟩
    rw [hres1, hres2]
    rfl
  rw [step_eq_handleMessage cfg _ e2 now2 rand2 hses2 hch2]
  unfold handleMessage
  dsimp only
  split
  · exact h1
  · split
    · exact h1
    · exact h1

/-- Witness for C9's theorem: the `world` message is appended at t = 50; a
second message with entirely different text, delivered at t = 99, is
swallowed as a duplicate because both normalizations leave `result`
undefined. -/
theorem undefined_result_oversuppression_witness :
    (step cfgT (step cfgT
      { messages := [], isSubAgentActive := true, hasStarted := true, processedEvents := [] }
      eWorldT 50 "ra")
      { channel := Channel.message, session := "p1",
        payload := Json.obj [("tool_id", Json.str "t1"),
          ("message", Json.obj [("type", Json.str "assistant"),
            ("message", Json.str "a completely different line")])] } 99 "rb").messages
      = [normalizeMessage pWorldT 50] :=
  undefined_result_oversuppression cfgT
    { messages := [], isSubAgentActive := true, hasStarted := true, processedEvents := [] }
    eWorldT
    { channel := Channel.message, session := "p1",
      payload := Json.obj [("tool_id", Json.str "t1"),
        ("message", Json.obj [("type", Json.str "assistant"),
          ("message", Json.str "a completely different line")])] }
    50 99 "ra" "rb" rfl rfl rfl rfl rfl (by decide) (by decide) (by decide)
    (by decide) (by decide) (by decide)

/-- C2 (amended): provided the first delivery of a message event is actually
appended, redelivering the same event within the 100 ms window is suppressed
and leaves the transcript unchanged, and the appended normalization did not
previously occur in the transcript (so the logical event contributes exactly
one entry).  Without that proviso the claim fails: a pre-existing
result-less entry within the window can swallow the first delivery and the
event may end up with no entry at all (see the counterexample). -/
theorem dedup_second_delivery_suppressed
    (cfg : Config) (s : CState) (e : RawEvent) (now1 now2 : Int) (rand1 rand2 : String)
    (hses : e.session = cfg.parentSessionId) (hch : e.channel = Channel.message)
    (htime : (now1 - now2).natAbs < 100)
    (happ : (step cfg s e now1 rand1).messages
      = s.messages ++ [normalizeMessage e.payload now1]) :
    (step cfg (step cfg s e now1 rand1) e now2 rand2).messages
        = (step cfg s e now1 rand1).messages ∧
      normalizeMessage e.payload now1 ∉ s.messages := by
  have hself : isDuplicateIn (step cfg s e now1 rand1).messages
      (normalizeMessage e.payload now2) = true := by
    rw [happ]
    unfold isDuplicateIn
    rw [List.any_eq_true]
    refine ⟨normalizeMessage e.payload now1,
      List.mem_append_right _ (List.mem_singleton_self _), ?_⟩
    rw [Bool.and_eq_true, Bool.or_eq_true]
    refine ⟨decide_eq_true (normalizeMessage_timestamp_close e.payload now1 now2 htime),
      Or.inl ?_⟩
    rw [normalizeMessage_message_indep e.payload now1 now2]
    exact beq_self_eq_true _
  have hnotin : normalizeMessage e.payload now1 ∉ s.messages := by
    intro hmem
    have hdup : isDuplicateIn s.messages (normalizeMessage e.payload now1) = true := by
      unfold isDuplicateIn
      rw [List.any_eq_true]
      refine ⟨normalizeMessage e.payload now1, hmem, ?_⟩
      rw [Bool.and_eq_true, Bool.or_eq_true]
      refine ⟨decide_eq_true (by omega), Or.inl (beq_self_eq_true _)⟩
    rw [step_eq_handleMessage cfg s e now1 rand1 hses hch] at happ
    unfold handleMessage at happ
    dsimp only at happ
    split at happ
    · simp at happ
    · split at happ
      · simp at happ
      · simp at happ
  refine ⟨?_, hnotin⟩
  rw [step_eq_handleMessage cfg _ e now2 rand2 hses hch]
  unfold handleMessage
  dsimp only
  split
  · rfl
  · split
    · rfl
    · rfl

/-- Witness for C2's theorem: the `hello` message (payload timestamp 1000)
is appended at t = 20; its redelivery at t = 21 changes nothing. -/
theorem dedup_second_delivery_suppressed_witness :
    (step cfgT (step cfgT sT0 eHelloT 20 "r2") eHelloT 21 "r3").messages
        = (step cfgT sT0 eHelloT 20 "r2").messages ∧
      normalizeMessage pHelloT 20 ∉ sT0.messages :=
  dedup_second_delivery_suppressed cfgT sT0 eHelloT 20 21 "r2" "r3" rfl rfl
    (by decide) rfl

/-- Counterexample to C2 as stated: the same timestampless message event is
delivered twice, at t = 50 and t = 99 (normalized timestamps 49 ms apart,
within the window), yet the transcript ends with ZERO entries for it: both
deliveries are swallowed by the pre-existing output entry (whose `result` is
also undefined) instead of yielding exactly one entry. -/
theorem dedup_idempotence_cex :
    ((normalizeMessage pWorldT 50).timestamp
        - (normalizeMessage pWorldT 99).timestamp).natAbs < 100 ∧
      (step cfgT sOutT eWorldT 50 "ra").messages = sOutT.messages ∧
      (step cfgT (step cfgT sOutT eWorldT 50 "ra") eWorldT 99 "rb").messages
        = sOutT.messages ∧
      ((sOutT.messages.map (fun mm => stringifyOpt mm.message)).contains
        (stringifyOpt (normalizeMessage pWorldT 50).message)) = false ∧
      ((sOutT.messages.map (fun mm => stringifyOpt mm.message)).contains
        (stringifyOpt (normalizeMessage pWorldT 99).message)) = false := by
  refine ⟨by decide, rfl, rfl, by decide, by decide⟩

theorem convertPipes_no_pipe (l : List Char) : '|' ∉ convertPipesToNewlines l := by
  unfold convertPipesToNewlines
  split
  · simp
  · intro hmem
    rw [List.mem_map] at hmem
    obtain ⟨c, _, hc⟩ := hmem
    by_cases h : (c == '|') = true
    · rw [if_pos h] at hc
      exact absurd hc (by decide)
    · rw [if_neg h] at hc
      rw [hc] at h
      exact h (by decide)

theorem squeeze_mem : ∀ (l : List Char), ∀ x ∈ squeezeNewlines l, x ∈ l
  | [] => by simp [squeezeNewlines]
  | [c] => by simp [squeezeNewlines]
  | [c, d] => by simp [squeezeNewlines]
  | c1 :: c2 :: c3 :: rest => by
    intro x hx
    simp only [squeezeNewlines] at hx
    split at hx
    · exact List.mem_cons_of_mem _ (squeeze_mem (c2 :: c3 :: rest) x hx)
    · rcases List.mem_cons.mp hx with h | h
      · exact h ▸ List.mem_cons_self _ _
      · exact List.mem_cons_of_mem _ (squeeze_mem (c2 :: c3 :: rest) x h)

theorem squeeze_cons : ∀ (c : Char) (rest : List Char),
    ∃ t, squeezeNewlines (c :: rest) = c :: t
  | _, [] => ⟨[], rfl⟩
  | _, [d] => ⟨[d], rfl⟩
  | c, d :: e :: rest => by
    rcases squeeze_cons d (e :: rest) with ⟨t, ht⟩
    by_cases h : (c == '\n' && d == '\n' && e == '\n') = true
    · refine ⟨t, ?_⟩
      simp only [squeezeNewlines]
      rw [if_pos h, ht]
      simp only [Bool.and_eq_true, beq_iff_eq] at h
      rw [h.1.2, h.1.1]
    · exact ⟨squeezeNewlines (d :: e :: rest), by
        simp only [squeezeNewlines]
        rw [if_neg h]⟩

theorem squeeze_noTriple : ∀ (l : List Char),
    hasTripleNewline (squeezeNewlines l) = false
  | [] => rfl
  | [_] => rfl
  | [_, _] => rfl
  | c1 :: c2 :: c3 :: rest => by
    have IH := squeeze_noTriple (c2 :: c3 :: rest)
    by_cases h : (c1 == '\n' && c2 == '\n' && c3 == '\n') = true
    · simp only [squeezeNewlines]
      rw [if_pos h]
      exact IH
    · simp only [squeezeNewlines]
      rw [if_neg h]
      rcases squeeze_cons c2 (c3 :: rest) with ⟨t, ht⟩
      rw [ht]
      cases t with
      | nil => rfl
      | cons c3' t' =>
        simp only [hasTripleNewline]
        rw [Bool.or_eq_false_iff]
        refine ⟨?_, by rw [← ht]; exact IH⟩
        rw [Bool.not_eq_true] at h
        rw [Bool.and_eq_false_iff] at h
        rcases h with h12 | hc3
        · rw [Bool.and_eq_false_iff]
          exact Or.inl h12
        · have hc3' : c3' = c3 := by
            cases rest with
            | nil =>
              simp only [squeezeNewlines] at ht
              injection ht with h1 h2
              injection h2 with h3 h4
              exact h3.symm
            | cons r0 r1 =>
              simp only [squeezeNewlines] at ht
              rw [if_neg (by simp [hc3])] at ht
              rcases squeeze_cons c3 (r0 :: r1) with ⟨t2, ht2⟩
              rw [ht2] at ht
              injection ht with h1 h2
              injection h2 with h3 h4
              exact h3.symm
          rw [Bool.and_eq_false_iff, hc3']
          exact Or.inr hc3

theorem hasTriple_eq_true_iff : ∀ (l : List Char),
    hasTripleNewline l = true ↔ ['\n', '\n', '\n'] <:+: l
  | [] => by
    constructor
    · intro h
      simp [hasTripleNewline] at h
    · intro h
      have := h.length_le
      simp at this
  | [c] => by
    constructor
    · intro h
      simp [hasTripleNewline] at h
    · intro h
      have := h.length_le
      simp at this
  | [c, d] => by
    constructor
    · intro h
      simp [hasTripleNewline] at h
    · intro h
      have := h.length_le
      simp at this
  | c1 :: c2 :: c3 :: rest => by
    have IH := hasTriple_eq_true_iff (c2 :: c3 :: rest)
    simp only [hasTripleNewline, Bool.or_eq_true, Bool.and_eq_true, beq_iff_eq]
    constructor
    · rintro (⟨⟨h1, h2⟩, h3⟩ | h)
      · exact List.infix_cons_iff.mpr (Or.inl ⟨rest, by rw [h1, h2, h3]; rfl⟩)
      · exact List.infix_cons_iff.mpr (Or.inr (IH.mp h))
    · intro hinf
      rcases List.infix_cons_iff.mp hinf with h | h
      · left
        rw [List.cons_prefix_cons] at h
        obtain ⟨h1, h⟩ := h
        rw [List.cons_prefix_cons] at h
        obtain ⟨h2, h⟩ := h
        rw [List.cons_prefix_cons] at h
        obtain ⟨h3, _⟩ := h
        exact ⟨⟨h1.symm, h2.symm⟩, h3.symm⟩
      · right
        exact IH.mpr h

theorem hasTriple_false_of_within {l m : List Char} (hml : m <:+: l)
    (hl : hasTripleNewline l = false) : hasTripleNewline m = false := by
  rcases Bool.eq_false_or_eq_true (hasTripleNewline m) with h | h
  case inr => exact h
  · rw [hasTriple_eq_true_iff] at h
    have h2 := h.trans hml
    rw [← hasTriple_eq_true_iff] at h2
    rw [h2] at hl
    cases hl

theorem trimChars_eq_rdrop (l : List Char) :
    trimChars l = List.rdropWhile isWsChar (List.dropWhile isWsChar l) := rfl

theorem trimChars_within (l : List Char) : trimChars l <:+: l := by
  rw [trimChars_eq_rdrop]
  exact (List.rdropWhile_prefix isWsChar (List.dropWhile isWsChar l)).isInfix.trans
    (List.dropWhile_suffix isWsChar).isInfix

theorem dropWhile_eq_self_of_prefix {α : Type} {p : α → Bool} {c b : List α}
    (hpre : c <+: b) (hb : List.dropWhile p b = b) : List.dropWhile p c = c := by
  cases c with
  | nil => rfl
  | cons x c' =>
    obtain ⟨t, ht⟩ := hpre
    subst ht
    rw [List.cons_append, List.dropWhile_cons] at hb
    by_cases hx : p x = true
    · exfalso
      rw [if_pos hx] at hb
      have hlen := congrArg List.length hb
      have hle : (List.dropWhile p (c' ++ t)).length ≤ (c' ++ t).length :=
        (List.dropWhile_sublist p).length_le
      simp only [List.length_cons, List.length_append] at hlen hle
      omega
    · rw [List.dropWhile_cons, if_neg hx]

theorem trim_no_leading (l : List Char) :
    (trimChars l).dropWhile isWsChar = trimChars l := by
  rw [trimChars_eq_rdrop]
  exact dropWhile_eq_self_of_prefix
    (List.rdropWhile_prefix isWsChar (List.dropWhile isWsChar l))
    (List.dropWhile_idempotent isWsChar l)

theorem trim_no_trailing (l : List Char) :
    (trimChars l).reverse.dropWhile isWsChar = (trimChars l).reverse := by
  unfold trimChars
  rw [List.reverse_reverse]
  exact List.dropWhile_idempotent isWsChar _

theorem contains_eq_false_of_not_mem {α : Type} [BEq α] [LawfulBEq α] {a : α} {l : List α}
    (h : a ∉ l) : l.contains a = false := by
  rcases Bool.eq_false_or_eq_true (l.contains a) with ht | hf
  · exact absurd (List.elem_iff.mp ht) h
  · exact hf

/-- C10 (confirmed): for every input, the output of
`preprocessTextForMarkdown` contains no pipe character (every pipe was mapped
to a newline before any other step), contains no run of three or more
consecutive newlines (the regex collapse leaves at most two and trimming
cannot create more), and carries no leading or trailing whitespace; the empty
(falsy) input maps to the empty output. -/
theorem preprocess_normal_form (l : List Char) :
    (preprocessTextForMarkdown l).contains '|' = false ∧
      hasTripleNewline (preprocessTextForMarkdown l) = false ∧
      (preprocessTextForMarkdown l).dropWhile isWsChar = preprocessTextForMarkdown l ∧
      (preprocessTextForMarkdown l).reverse.dropWhile isWsChar
        = (preprocessTextForMarkdown l).reverse ∧
      preprocessTextForMarkdown [] = [] := by
  refine ⟨?_, ?_, ?_, ?_, rfl⟩
  · unfold preprocessTextForMarkdown
    split
    · rfl
    · refine contains_eq_false_of_not_mem (fun hm => ?_)
      exact convertPipes_no_pipe l
        (squeeze_mem _ '|' ((trimChars_within _).subset hm))
  · unfold preprocessTextForMarkdown
    split
    · rfl
    · exact hasTriple_false_of_within (trimChars_within _) (squeeze_noTriple _)
  · unfold preprocessTextForMarkdown
    split
    · rfl
    · exact trim_no_leading _
  · unfold preprocessTextForMarkdown
    split
    · rfl
    · exact trim_no_trailing _
